import Mathlib

/-!
Verification development for the OmniPath `run` subsystem: the interactive
multi-service session multiplexer (`cmd/omnipath/run.go`, `internal/tui`,
`internal/tui/multiplexer`).  Go code is shallowly embedded: pure structure is
translated directly; interactions with the operating system (pipe creation,
process start, `Getpgid`, `Kill`, stdin writes) are modelled as explicit
effect values or as oracle inputs describing the OS response, so that the
control flow of the Go source is preserved verbatim.
-/

namespace OmniPath

/-! ## Data model (internal/tui: Service and Session) -/

/-- Embedding of `tui.Service`: a runnable service descriptor with a name, a shell command
and an interactive flag. -/
structure Service where
  name : String
  command : String
  interactive : Bool
deriving DecidableEq, Repr

/-- The started OS process behind an `exec.Cmd` (`Cmd.Process`).  `pid` is the
process id; `pgid` models the outcome of `syscall.Getpgid(pid)` at signalling
time: `some g` when the call succeeds returning group `g`, `none` when it
returns an error. -/
structure GoProcess where
  pid : Int
  pgid : Option Int
deriving DecidableEq, Repr

/-- An `exec.Cmd` value as the multiplexer sees it: its `Process` field is
`nil` before a successful `Start` and set afterwards. -/
structure ExecCmd where
  process : Option GoProcess
deriving DecidableEq, Repr

/-- Embedding of `tui.Session`: a running service with its stdin pipe, accumulated output
and command reference.  `stdin` is the `io.WriteCloser` for the child's
standard input, modelled as an abstract handle id (`none` = nil pipe);
`cmd` is the `*exec.Cmd` reference (`none` = nil pointer). -/
structure Session where
  name : String
  stdin : Option Nat
  output : String
  cmd : Option ExecCmd
deriving DecidableEq, Repr

/-! ## Multiplexer model (internal/tui/multiplexer/multiplexer.go)

`multiplexerModel` holds the session slice and the focused index.  The Go
struct also carries `updateCh` (the redraw channel) and an unused `mu`
mutex field; neither affects the state transitions modelled here, and the
lock-acquisition structure of the program is modelled separately below. -/

structure multiplexerModel where
  sessions : List Session
  activeIndex : Nat
deriving DecidableEq, Repr

/-- Constructor `NewMultiplexerModel` starts with the focused index at 0. -/
def NewMultiplexerModel (sessions : List Session) : multiplexerModel :=
  { sessions := sessions, activeIndex := 0 }

/-- A Bubbletea message as the multiplexer consumes it: `key t` is a
`tea.KeyMsg` whose `String()` is `t`; `tick` is the periodic redraw message
delivered through `updateCh` (any non-key message falls through the switch). -/
inductive Msg where
  | key : String → Msg
  | tick : Msg
deriving DecidableEq, Repr

/-- An observable side effect of one `Update` step: `getpgid pid` is a call
to `syscall.Getpgid(pid)`; `sigintGroup g` is `syscall.Kill(-g, SIGINT)`;
`writeStdin h t` is `Stdin.Write([]byte(t))` on the pipe with handle `h`. -/
inductive Effect where
  | getpgid : Int → Effect
  | sigintGroup : Int → Effect
  | writeStdin : Nat → String → Effect
deriving DecidableEq, Repr

/-- The per-session body of the quit loop in `Update`: when `sess.Cmd` and
`sess.Cmd.Process` are both non-nil, call `Getpgid` on the pid and, if it
succeeds, send SIGINT to the process group.  Errors from either syscall are
ignored (the loop continues with the next session). -/
def signalSession (s : Session) : List Effect :=
  match s.cmd with
  | none => []
  | some c =>
    match c.process with
    | none => []
    | some p =>
      match p.pgid with
      | some g => [Effect.getpgid (p.pid), Effect.sigintGroup g]
      | none => [Effect.getpgid (p.pid)]

/-- The result of one `Update` step: the next model, the syscall effects the
step performed, and whether the returned command is `tea.Quit`. -/
structure UpdateResult where
  model : multiplexerModel
  effects : List Effect
  quit : Bool
deriving DecidableEq, Repr

/-- Embedding of `multiplexerModel.Update`, translated branch by branch.  The default
branch indexes `m.sessions[m.activeIndex]`; an out-of-range index would panic
in Go, modelled here by `List.get?` returning `none` (no effect emitted). -/
def Update (m : multiplexerModel) (msg : Msg) : UpdateResult :=
  match msg with
  | Msg.tick => { model := m, effects := [], quit := false }
  | Msg.key t =>
    if t = "ctrl+c" ∨ t = "q" then
      { model := m, effects := m.sessions.flatMap signalSession, quit := true }
    else if t = "left" ∨ t = "h" then
      { model := { m with activeIndex := if 0 < m.activeIndex then m.activeIndex - 1 else m.activeIndex },
        effects := [], quit := false }
    else if t = "right" ∨ t = "l" then
      { model := { m with activeIndex := if m.activeIndex < m.sessions.length - 1 then m.activeIndex + 1 else m.activeIndex },
        effects := [], quit := false }
    else
      { model := m,
        effects :=
          match m.sessions.get? m.activeIndex with
          | none => []
          | some active =>
            match active.stdin with
            | none => []
            | some h => [Effect.writeStdin h t],
        quit := false }

/-- The header is padded with empty lines up to this height (`headerHeight`
in `View`). -/
def headerHeight : Nat := 6

/-- One session line of the header: `fmt.Sprintf("%s%d: %s", marker, i, name)`
with marker `"> "` on the focused session and `"  "` otherwise. -/
def sessionHeaderLine (i : Nat) (activeIndex : Nat) (s : Session) : String :=
  (if i = activeIndex then "> " else "  ") ++ toString i ++ ": " ++ s.name

/-- The header lines built by `View`: a `"Sessions:"` title, one line per
session, then empty-line padding while the count is below `headerHeight`. -/
def headerLines (m : multiplexerModel) : List String :=
  let hl := "Sessions:" :: m.sessions.enum.map (fun p => sessionHeaderLine p.1 m.activeIndex p.2)
  hl ++ List.replicate (headerHeight - hl.length) ""

/-- Embedding of `multiplexerModel.View`: the joined header, a separator, then the focused
session's whole `Output` buffer.  The Go body indexes
`m.sessions[m.activeIndex]`, which panics when out of range; that case is
modelled as `none`. -/
def View (m : multiplexerModel) : Option String :=
  match m.sessions.get? m.activeIndex with
  | none => none
  | some active =>
    some (String.intercalate ("\n") (headerLines m) ++
      "\n\n--- Active Session Output ---\n" ++ active.output)

/-! ## Stream capture (the drain goroutines in cmd/omnipath/run.go)

Each drain goroutine loops `line, err := reader.ReadString('\n')`; on a nil
error it appends the line (including its terminator) to `session.Output`
under the mutex; on any error, end-of-stream included, it breaks without
appending.  Hence only newline-terminated chunks of the pipe's contents ever
reach the buffer, in stream order. -/

/-- The scanning loop of `bufio.Reader.ReadString('\n')` over the remaining
stream characters: accumulate until a newline, yield the line including its
terminator, continue; characters left at end-of-stream are the fragment that
`ReadString` returns together with `io.EOF`, which the drain loop drops. -/
def readStringLines : List Char → List Char → List String
  | [], _acc => []
  | c :: rest, acc =>
    if c = '\n' then String.mk (acc ++ [c]) :: readStringLines rest []
    else readStringLines rest (acc ++ [c])

/-- The newline-terminated lines that `bufio.Reader.ReadString` yields with a
nil error from a pipe whose whole contents are `stream`. -/
def completeLines (stream : String) : List String :=
  readStringLines stream.data []

/-- One iteration of a drain loop: `session.Output += line`. -/
def drainStep (output line : String) : String := output ++ line

/-- A whole drain run: fold the loop over the lines the pipe yields. -/
def drainRun (output : String) (lines : List String) : String :=
  lines.foldl drainStep output

/-! ## Lock-acquisition structure

`runCmd` declares a single `var mu sync.Mutex` in its interactive block; the
closures launched for every session capture that one variable.  The constants
below record, per program point, which mutex each buffer access acquires;
a reviewer can read them off the source directly. -/

/-- The mutexes of the run subsystem: `runMu` is the `mu` local of `runCmd`;
`modelMu` is the `mu` field of `multiplexerModel` (declared, never locked). -/
inductive LockId where
  | runMu : LockId
  | modelMu : LockId
deriving DecidableEq, Repr

/-- The lock the stdout-drain goroutine of the session with index `i`
acquires before `session.Output += line`: the one closure-captured `mu`,
whichever session it drains. -/
def stdoutDrainLock (_i : Nat) : LockId := LockId.runMu

/-- The lock the stderr-drain goroutine of the session with index `i`
acquires before appending: the same single `mu`. -/
def stderrDrainLock (_i : Nat) : LockId := LockId.runMu

/-- The lock held around `sessions = append(sessions, session)`: again the
same `mu`. -/
def registryAppendLock : LockId := LockId.runMu

/-- The locks `multiplexerModel.View` acquires before reading
`m.sessions[m.activeIndex].Output`: its body contains no `Lock` call. -/
def viewLocksHeld : List LockId := []

/-! ## Process launcher (the per-service goroutine in runCmd) -/

/-- The OS responses one launch goroutine can meet, in the order the code
asks for them: a failure obtaining the stdout, stderr or stdin pipe, a
failure of `c.Start()`, or a successful start yielding a stdin pipe handle
and a running process. -/
inductive LaunchOutcome where
  | stdoutPipeErr : LaunchOutcome
  | stderrPipeErr : LaunchOutcome
  | stdinPipeErr : LaunchOutcome
  | startErr : LaunchOutcome
  | started : Nat → GoProcess → LaunchOutcome
deriving DecidableEq, Repr

/-- Whether the outcome is a successful start. -/
def LaunchOutcome.isStarted : LaunchOutcome → Bool
  | LaunchOutcome.started _ _ => true
  | _ => false

/-- One launch goroutine: every failure path logs and returns before a
Session is built, so it contributes nothing to the registry; the success
path builds the Session with the service's name, the stdin pipe, an empty
output buffer and the started command. -/
def launchSession (s : Service) (o : LaunchOutcome) : Option Session :=
  match o with
  | LaunchOutcome.stdoutPipeErr => none
  | LaunchOutcome.stderrPipeErr => none
  | LaunchOutcome.stdinPipeErr => none
  | LaunchOutcome.startErr => none
  | LaunchOutcome.started h p =>
    some { name := s.name, stdin := some h, output := "", cmd := some { process := some p } }

/-- The registry the launch phase hands to the UI: the Sessions of the
services whose launch succeeded.  (The goroutines append in completion
order; this sequential model keeps input order, which the membership and
counting claims below do not depend on.) -/
def launchSessions (svcs : List (Service × LaunchOutcome)) : List Session :=
  svcs.filterMap (fun p => launchSession p.1 p.2)

/-! ## Selection stage (internal/tui, RunMultiSelect in part_009) -/

/-- Embedding of `multiSelectItem`: a service with its checkbox state. -/
structure multiSelectItem where
  service : Service
  selected : Bool
deriving DecidableEq, Repr

/-- The enter branch of the multi-select `Update`: collect the checked
services; if none is checked, fall back to the item under the cursor
(`m.list.Items()[m.list.Cursor()]`; an out-of-range cursor would panic in Go,
modelled by the `none` case). -/
def confirmSelection (items : List multiSelectItem) (cursor : Nat) : List Service :=
  let selected := (items.filter (fun it => it.selected)).map (fun it => it.service)
  if selected.isEmpty then
    match items.get? cursor with
    | some it => [it.service]
    | none => []
  else
    selected

/-- The multi-select model: the list items with their checkboxes, the list
cursor, and the `selected` field that `RunMultiSelect` returns after the
program ends. -/
structure multiSelectModel where
  items : List multiSelectItem
  cursor : Nat
  committed : List Service
deriving DecidableEq, Repr

/-- Constructor `NewMultiSelectModel`: every checkbox starts clear, nothing committed. -/
def NewMultiSelectModel (services : List Service) : multiSelectModel :=
  { items := services.map (fun s => { service := s, selected := false }),
    cursor := 0,
    committed := [] }

/-- The multi-select `Update` on a key message, branch by branch.  ctrl+c/q
quit with nothing committed; up/k and down/j are delegated to the bubbles
list widget, whose cursor moves are bounded at the ends (external library
behaviour); space toggles the checkbox under the cursor; enter commits
`confirmSelection` and quits.  The returned Bool is whether the step quits. -/
def multiSelectUpdate (m : multiSelectModel) (key : String) : multiSelectModel × Bool :=
  if key = "ctrl+c" ∨ key = "q" then
    (m, true)
  else if key = "up" ∨ key = "k" then
    ({ m with cursor := m.cursor - 1 }, false)
  else if key = "down" ∨ key = "j" then
    ({ m with cursor := min (m.cursor + 1) (m.items.length - 1) }, false)
  else if key = " " then
    ({ m with items :=
        match m.items.get? m.cursor with
        | some it => m.items.set m.cursor { it with selected := !it.selected }
        | none => m.items }, false)
  else if key = "enter" then
    ({ m with committed := confirmSelection m.items m.cursor }, true)
  else
    (m, false)

/-! ## The run command (cmd/omnipath/run.go, the Run closure of runCmd) -/

/-- How one invocation of the run command ends.  `log.Fatalf` calls
`os.Exit(1)`; a plain `return` lets the process end normally. -/
inductive RunOutcome where
  | noServicesDetected : RunOutcome
  | selectionError : RunOutcome
  | emptySelection : RunOutcome
  | fatalNoSessions : RunOutcome
  | multiplexerError : RunOutcome
  | finished : RunOutcome
deriving DecidableEq, Repr

/-- The process exit status each outcome produces: the `log.Fatalf` paths
exit with status 1, every other path returns and the program exits 0. -/
def exitCode : RunOutcome → Nat
  | RunOutcome.selectionError => 1
  | RunOutcome.fatalNoSessions => 1
  | RunOutcome.multiplexerError => 1
  | _ => 0

/-- The environment one run interacts with: the result `RunMultiSelect`
returns when it is invoked (an error, or the user's selection — empty when
the user quits without confirming), the OS response to each interactive
launch goroutine in service order, and whether `RunMultiplexer` returns an
error. -/
structure RunEnv where
  selection : Except String (List Service)
  launchOutcomes : List LaunchOutcome
  multiplexerOk : Bool
deriving Repr

/-- What one invocation of the run command did: its outcome, the
non-interactive services it ran in the foreground, the interactive services
whose launch goroutine ran, the session registry handed to the multiplexer
(empty when that point is never reached), and whether the multiplexer UI was
entered. -/
structure RunResult where
  outcome : RunOutcome
  foregroundRuns : List Service
  launchAttempts : List Service
  registry : List Session
  enteredMultiplexer : Bool
deriving Repr

/-- The tail of the run command after a non-empty selection is fixed: split
into interactive and non-interactive, run the non-interactive ones in the
foreground (errors logged, loop continues), then, when any interactive
service was selected, launch them all, `Fatalf` when the registry stays
empty, and otherwise run the multiplexer (`Fatalf` on its error). -/
def runSelected (selected : List Service) (env : RunEnv) : RunResult :=
  let interactiveServices := selected.filter (fun s => s.interactive)
  let nonInteractiveServices := selected.filter (fun s => !s.interactive)
  if interactiveServices.isEmpty then
    { outcome := RunOutcome.finished, foregroundRuns := nonInteractiveServices,
      launchAttempts := [], registry := [], enteredMultiplexer := false }
  else
    let sessions := launchSessions (interactiveServices.zip env.launchOutcomes)
    if sessions.isEmpty then
      { outcome := RunOutcome.fatalNoSessions, foregroundRuns := nonInteractiveServices,
        launchAttempts := interactiveServices, registry := [], enteredMultiplexer := false }
    else
      { outcome := if env.multiplexerOk then RunOutcome.finished else RunOutcome.multiplexerError,
        foregroundRuns := nonInteractiveServices,
        launchAttempts := interactiveServices, registry := sessions,
        enteredMultiplexer := true }

/-- The Run closure of runCmd: bail out when detection finds nothing; with a
single detected service auto-select it; with several, ask `RunMultiSelect`
and `Fatalf` on its error or return cleanly on an empty selection; then hand
the selection to `runSelected`. -/
def runCmdRun (detected : List Service) (env : RunEnv) : RunResult :=
  match detected with
  | [] =>
    { outcome := RunOutcome.noServicesDetected, foregroundRuns := [],
      launchAttempts := [], registry := [], enteredMultiplexer := false }
  | s :: rest =>
    if rest.isEmpty then
      runSelected [s] env
    else
      match env.selection with
      | Except.error _ =>
        { outcome := RunOutcome.selectionError, foregroundRuns := [],
          launchAttempts := [], registry := [], enteredMultiplexer := false }
      | Except.ok [] =>
        { outcome := RunOutcome.emptySelection, foregroundRuns := [],
          launchAttempts := [], registry := [], enteredMultiplexer := false }
      | Except.ok (t :: ts) => runSelected (t :: ts) env

/-! ## Derived definitions used by the claims -/

/-- Whether a Session's `Cmd` and `Cmd.Process` are both non-nil — true of
every Session the launcher ever puts in the registry, since a Session is
built only after `c.Start()` succeeded. -/
def hasLiveProcess (s : Session) : Bool :=
  match s.cmd with
  | some c => c.process.isSome
  | none => false

/-- Whether an effect is the start of a per-session interrupt attempt (the
`Getpgid` call opening the quit-loop body for that session). -/
def isInterruptAttempt : Effect → Bool
  | Effect.getpgid _ => true
  | _ => false

/-- Whether an effect is a write to some session's stdin. -/
def isStdinWrite : Effect → Bool
  | Effect.writeStdin _ _ => true
  | _ => false

/-- The model after one `Update` step. -/
def stepModel (m : multiplexerModel) (msg : Msg) : multiplexerModel :=
  (Update m msg).model

/-- The model after a whole sequence of events. -/
def runEvents (m : multiplexerModel) (msgs : List Msg) : multiplexerModel :=
  msgs.foldl stepModel m

/-- The key texts the multiplexer consumes itself (quit and navigation). -/
def reservedKeys : List String := ["ctrl+c", "q", "left", "h", "right", "l"]

/-! ## Concrete fixtures for the witnesses -/

/-- Two unchecked rows with the cursor on row 0, for the C4 witness. -/
def sampleSelectModel : multiSelectModel :=
  { items :=
      [{ service := { name := "alpha", command := "run-a", interactive := true },
         selected := false },
       { service := { name := "beta", command := "run-b", interactive := false },
         selected := false }],
    cursor := 0,
    committed := [] }

/-- Two detected services for the C8 witness. -/
def sampleDetectedPair : List Service :=
  [{ name := "alpha", command := "run-a", interactive := true },
   { name := "beta", command := "run-b", interactive := false }]

/-- An environment in which the user cancels the picker, for the C8 witness. -/
def sampleAbortEnv : RunEnv :=
  { selection := Except.ok [], launchOutcomes := [], multiplexerOk := true }

/-- One detected interactive service for the C3 witness. -/
def sampleDetectedSingle : List Service :=
  [{ name := "alpha", command := "run-a", interactive := true }]

/-- An environment whose only launch fails at `c.Start()`, for the C3
witness. -/
def sampleFailEnv : RunEnv :=
  { selection := Except.ok [], launchOutcomes := [LaunchOutcome.startErr],
    multiplexerOk := true }

/-- The C6 witness scenario: service alpha starts, service beta fails to
spawn. -/
def sampleLaunchPairs : List (Service × LaunchOutcome) :=
  [({ name := "alpha", command := "run-a", interactive := true },
    LaunchOutcome.started 7 { pid := 41, pgid := some 41 }),
   ({ name := "beta", command := "run-b", interactive := true },
    LaunchOutcome.startErr)]

/-- Three live sessions for the C2 witness; the second one's `Getpgid`
fails, showing the count is unaffected by individual signal failures. -/
def sampleThreeSessions : List Session :=
  [{ name := "alpha", stdin := some 1, output := "",
     cmd := some { process := some { pid := 11, pgid := some 11 } } },
   { name := "beta", stdin := some 2, output := "",
     cmd := some { process := some { pid := 12, pgid := none } } },
   { name := "gamma", stdin := some 3, output := "",
     cmd := some { process := some { pid := 13, pgid := some 13 } } }]

/-- A multiplexer over the three sample sessions, focused on index 1, for
the C9 and C10 witnesses. -/
def sampleMuxModel : multiplexerModel :=
  { sessions := sampleThreeSessions, activeIndex := 1 }

/-! ## Helper lemmas -/

/-- Each drain run only ever appends to the buffer it starts from. -/
theorem drainRun_extends (output : String) (lines : List String) :
    ∃ t : String, drainRun output lines = output ++ t := by
  induction lines generalizing output with
  | nil => exact ⟨"", by simp [drainRun]⟩
  | cons l ls ih =>
    obtain ⟨t, ht⟩ := ih (output ++ l)
    refine ⟨l ++ t, ?_⟩
    show drainRun (output ++ l) ls = output ++ (l ++ t)
    rw [ht, String.append_assoc]

/-! ## Claims -/

/-- C1, as the specification states it, is false of the code: there is no
assignment of a distinct lock to each session under which both drain tasks
of session `i` acquire lock `i` and the `View` render path acquires lock `i`
before reading.  Concretely, `View` acquires no lock at all
(`viewLocksHeld = []`), and the drain tasks of sessions 0 and 1 acquire the
same mutex, so locks are shared across distinct sessions. -/
theorem c1_counterexample :
    ¬ ∃ lockOf : Nat → LockId,
        (∀ i : Nat, stdoutDrainLock i = lockOf i ∧ stderrDrainLock i = lockOf i) ∧
        (∀ i : Nat, lockOf i ∈ viewLocksHeld) ∧
        (∀ i j : Nat, i ≠ j → lockOf i ≠ lockOf j) := by
  rintro ⟨lockOf, hdrain, hview, hinj⟩
  have h0 := hview 0
  simp [viewLocksHeld] at h0

/-- C1 amended: both drain tasks of every session do acquire a
mutual-exclusion lock before appending, but it is one run-wide mutex shared
by all sessions (the same mutex also guards the registry append), and the
UI render path reads the buffer without acquiring any lock. -/
theorem c1_lock_discipline :
    (∀ i j : Nat, stdoutDrainLock i = stderrDrainLock j ∧
      stdoutDrainLock i = registryAppendLock) ∧
    viewLocksHeld = [] := by
  exact ⟨fun i j => ⟨rfl, rfl⟩, rfl⟩

/-- C7: a session's output buffer is append-only — a drain run starting
from any buffer state only extends it, and splitting the incoming lines
anywhere shows every intermediate state is a prefix of the final one — and
per-stream order is preserved: a process that emits the lines x and y on
stdout leaves the buffer equal to their in-order concatenation. -/
theorem c7_output_append_only :
    (∀ (output : String) (lines₁ lines₂ : List String), ∃ t : String,
        drainRun output (lines₁ ++ lines₂) = drainRun output lines₁ ++ t) ∧
    drainRun ("") (completeLines ("x\n" ++ "y\n")) = "x\n" ++ "y\n" := by
  constructor
  · intro output l₁ l₂
    rw [drainRun, List.foldl_append]
    exact drainRun_extends _ l₂
  · decide

/-- The enter branch commits `confirmSelection` over the current items and
cursor and quits. -/
theorem multiSelectUpdate_enter (m : multiSelectModel) :
    multiSelectUpdate m ("enter") =
      ({ m with committed := confirmSelection m.items m.cursor }, true) := by
  simp [multiSelectUpdate]

/-- C4: in the multi-select stage, pressing the confirm key while no row is
checked commits exactly the one-element list holding the descriptor under
the cursor, and the step quits the picker. -/
theorem c4_fallback_to_cursor (m : multiSelectModel)
    (hN : 1 < m.items.length) (hcur : m.cursor < m.items.length)
    (hnone : ∀ it ∈ m.items, it.selected = false) :
    ∃ it : multiSelectItem, m.items.get? m.cursor = some it ∧
      (multiSelectUpdate m ("enter")).1.committed = [it.service] ∧
      (multiSelectUpdate m ("enter")).2 = true := by
  have hfil : m.items.filter (fun it => it.selected) = [] :=
    List.filter_eq_nil_iff.mpr (fun a ha => by simp [hnone a ha])
  refine ⟨m.items.get ⟨m.cursor, hcur⟩, List.get?_eq_get hcur, ?_, ?_⟩
  · rw [multiSelectUpdate_enter]
    show confirmSelection m.items m.cursor = _
    unfold confirmSelection
    rw [hfil]
    simp [List.getElem?_eq_getElem hcur]
  · rw [multiSelectUpdate_enter]

/-- Witness for C4: confirming `sampleSelectModel` without any checked row
returns exactly the descriptor under the cursor. -/
theorem c4_witness :
    ∃ it : multiSelectItem,
      sampleSelectModel.items.get? sampleSelectModel.cursor = some it ∧
      (multiSelectUpdate sampleSelectModel ("enter")).1.committed = [it.service] ∧
      (multiSelectUpdate sampleSelectModel ("enter")).2 = true :=
  c4_fallback_to_cursor sampleSelectModel (by decide) (by decide) (by decide)

/-- C8: when the selection stage hands back an empty selection without an
error, the run command logs and returns: outcome `emptySelection`, exit
status 0, no foreground run, no launch attempt, no registry, no UI. -/
theorem c8_empty_selection_clean_abort (detected : List Service) (env : RunEnv)
    (hN : 1 < detected.length) (hsel : env.selection = Except.ok []) :
    (runCmdRun detected env).outcome = RunOutcome.emptySelection ∧
    exitCode (runCmdRun detected env).outcome = 0 ∧
    (runCmdRun detected env).foregroundRuns = [] ∧
    (runCmdRun detected env).launchAttempts = [] ∧
    (runCmdRun detected env).registry = [] ∧
    (runCmdRun detected env).enteredMultiplexer = false := by
  match detected, hN with
  | a :: b :: rest, _ =>
    simp [runCmdRun, hsel, exitCode]

/-- Witness for C8: cancelling the picker over two detected services is a
clean no-op abort. -/
theorem c8_witness :
    (runCmdRun sampleDetectedPair sampleAbortEnv).outcome = RunOutcome.emptySelection ∧
    exitCode (runCmdRun sampleDetectedPair sampleAbortEnv).outcome = 0 ∧
    (runCmdRun sampleDetectedPair sampleAbortEnv).foregroundRuns = [] ∧
    (runCmdRun sampleDetectedPair sampleAbortEnv).launchAttempts = [] ∧
    (runCmdRun sampleDetectedPair sampleAbortEnv).registry = [] ∧
    (runCmdRun sampleDetectedPair sampleAbortEnv).enteredMultiplexer = false :=
  c8_empty_selection_clean_abort sampleDetectedPair sampleAbortEnv (by decide) rfl

/-- A launch phase in which no service starts successfully yields an empty
registry. -/
theorem launchSessions_nil_of_failures (pairs : List (Service × LaunchOutcome))
    (h : ∀ p ∈ pairs, p.2.isStarted = false) : launchSessions pairs = [] := by
  induction pairs with
  | nil => rfl
  | cons a t ih =>
    have ha := h a (List.mem_cons_self a t)
    have ht := ih (fun p hp => h p (List.mem_cons_of_mem a hp))
    obtain ⟨s, o⟩ := a
    cases o <;> simp_all [launchSessions, launchSession, LaunchOutcome.isStarted]

/-- When all launch outcomes fail and some interactive service was selected,
`runSelected` takes the `Fatalf` branch without entering the UI. -/
theorem runSelected_fatal (selected : List Service) (env : RunEnv)
    (hfail : ∀ o ∈ env.launchOutcomes, o.isStarted = false)
    (hatt : (runSelected selected env).launchAttempts ≠ []) :
    (runSelected selected env).outcome = RunOutcome.fatalNoSessions ∧
    (runSelected selected env).enteredMultiplexer = false := by
  have hsess : launchSessions
      ((selected.filter (fun s => s.interactive)).zip env.launchOutcomes) = [] := by
    apply launchSessions_nil_of_failures
    intro p hp
    exact hfail p.2 (List.of_mem_zip hp).2
  unfold runSelected at hatt ⊢
  by_cases hint : (selected.filter (fun s => s.interactive)).isEmpty
  · simp [hint] at hatt
  · simp [hint, hsess]

/-- C3: when every interactive launch fails (no outcome is a successful
start) but at least one launch goroutine ran, the run command ends in the
`fatalNoSessions` `log.Fatalf` path: a non-zero exit status and the
multiplexer UI never entered. -/
theorem c3_fatal_on_empty_registry (detected : List Service) (env : RunEnv)
    (hfail : ∀ o ∈ env.launchOutcomes, o.isStarted = false)
    (hattempt : (runCmdRun detected env).launchAttempts ≠ []) :
    (runCmdRun detected env).outcome = RunOutcome.fatalNoSessions ∧
    exitCode (runCmdRun detected env).outcome ≠ 0 ∧
    (runCmdRun detected env).enteredMultiplexer = false := by
  match detected with
  | [] => simp [runCmdRun] at hattempt
  | s :: rest =>
    rw [runCmdRun] at hattempt ⊢
    by_cases hr : rest.isEmpty
    · rw [if_pos hr] at hattempt ⊢
      obtain ⟨h1, h2⟩ := runSelected_fatal [s] env hfail hattempt
      exact ⟨h1, by rw [h1]; decide, h2⟩
    · rw [if_neg hr] at hattempt ⊢
      match hsel : env.selection with
      | Except.error e => rw [hsel] at hattempt; exact absurd rfl hattempt
      | Except.ok [] => rw [hsel] at hattempt; exact absurd rfl hattempt
      | Except.ok (t :: ts) =>
        rw [hsel] at hattempt
        show (runSelected (t :: ts) env).outcome = RunOutcome.fatalNoSessions ∧
          exitCode (runSelected (t :: ts) env).outcome ≠ 0 ∧
          (runSelected (t :: ts) env).enteredMultiplexer = false
        obtain ⟨h1, h2⟩ := runSelected_fatal (t :: ts) env hfail hattempt
        exact ⟨h1, by rw [h1]; decide, h2⟩

/-- Witness for C3: one interactive service whose start fails makes the run
command exit fatally without entering the multiplexer. -/
theorem c3_witness :
    (runCmdRun sampleDetectedSingle sampleFailEnv).outcome = RunOutcome.fatalNoSessions ∧
    exitCode (runCmdRun sampleDetectedSingle sampleFailEnv).outcome ≠ 0 ∧
    (runCmdRun sampleDetectedSingle sampleFailEnv).enteredMultiplexer = false :=
  c3_fatal_on_empty_registry sampleDetectedSingle sampleFailEnv (by decide) (by decide)

/-- C6: a per-service launch failure is isolated.  The registry holds
exactly one Session per successfully started service; every registry entry
comes from a successfully started sibling; and a service whose launch
succeeded has its Session reachable in the registry no matter which other
services failed. -/
theorem c6_launch_isolation (svcs : List (Service × LaunchOutcome))
    (s : Service) (h : Nat) (p : GoProcess)
    (hmem : (s, LaunchOutcome.started h p) ∈ svcs) :
    (launchSessions svcs).length = (svcs.filter (fun q => q.2.isStarted)).length ∧
    (∀ sess ∈ launchSessions svcs, ∃ q ∈ svcs,
        q.2.isStarted = true ∧ launchSession q.1 q.2 = some sess) ∧
    ({ name := s.name, stdin := some h, output := "",
       cmd := some { process := some p } } : Session) ∈ launchSessions svcs := by
  refine ⟨?_, ?_, ?_⟩
  · clear hmem
    induction svcs with
    | nil => rfl
    | cons a t ih =>
      obtain ⟨sv, o⟩ := a
      cases o <;> simp_all [launchSessions, launchSession, LaunchOutcome.isStarted]
  · intro sess hsess
    obtain ⟨q, hq, hq2⟩ := List.mem_filterMap.mp hsess
    refine ⟨q, hq, ?_, hq2⟩
    obtain ⟨sv, o⟩ := q
    cases o <;> simp_all [launchSession, LaunchOutcome.isStarted]
  · exact List.mem_filterMap.mpr ⟨(s, LaunchOutcome.started h p), hmem, rfl⟩

/-- Witness for C6: beta's spawn failure leaves alpha's Session in the
registry, and the registry holds exactly the one started service. -/
theorem c6_witness :
    (launchSessions sampleLaunchPairs).length =
      (sampleLaunchPairs.filter (fun q => q.2.isStarted)).length ∧
    (∀ sess ∈ launchSessions sampleLaunchPairs, ∃ q ∈ sampleLaunchPairs,
        q.2.isStarted = true ∧ launchSession q.1 q.2 = some sess) ∧
    ({ name := "alpha", stdin := some 7, output := "",
       cmd := some { process := some { pid := 41, pgid := some 41 } } } : Session) ∈
      launchSessions sampleLaunchPairs :=
  c6_launch_isolation sampleLaunchPairs
    { name := "alpha", command := "run-a", interactive := true } 7
    { pid := 41, pgid := some 41 } (by decide)

/-- A live session's quit-loop body opens with exactly one `Getpgid` call,
whatever the `Getpgid` outcome and whatever the subsequent `Kill` returns. -/
theorem signalSession_one_attempt (s : Session) (h : hasLiveProcess s = true) :
    (signalSession s).countP isInterruptAttempt = 1 := by
  obtain ⟨name, stdin, output, cmd⟩ := s
  cases cmd with
  | none => simp [hasLiveProcess] at h
  | some c =>
    obtain ⟨proc⟩ := c
    cases proc with
    | none => simp [hasLiveProcess] at h
    | some p =>
      obtain ⟨pid, pgid⟩ := p
      cases pgid <;>
        simp [signalSession, isInterruptAttempt, List.countP_cons, List.countP_nil]

/-- Over a list of live sessions the quit loop makes one interrupt attempt
per session. -/
theorem countP_flatMap_signal (ss : List Session)
    (h : ∀ s ∈ ss, hasLiveProcess s = true) :
    ((ss.flatMap signalSession).countP isInterruptAttempt) = ss.length := by
  induction ss with
  | nil => rfl
  | cons a tl ih =>
    rw [List.flatMap_cons, List.countP_append,
      signalSession_one_attempt a (h a (List.mem_cons_self a tl)),
      ih (fun s hs => h s (List.mem_cons_of_mem a hs))]
    simp [Nat.add_comm]

/-- C2: on the quit keys (`ctrl+c` or `q`) the Update step walks the whole
session registry and makes exactly one interrupt attempt per tracked
session — with N sessions, N attempts — and then quits the event loop; the
attempt count does not depend on whether any session's `Getpgid` or `Kill`
fails. -/
theorem c2_quit_signals_each_session_once (m : multiplexerModel) (t : String)
    (ht : t = "ctrl+c" ∨ t = "q")
    (hlive : ∀ s ∈ m.sessions, hasLiveProcess s = true) :
    (Update m (Msg.key t)).effects = m.sessions.flatMap signalSession ∧
    ((Update m (Msg.key t)).effects.countP isInterruptAttempt) = m.sessions.length ∧
    (∀ s ∈ m.sessions, (signalSession s).countP isInterruptAttempt = 1) ∧
    (Update m (Msg.key t)).quit = true := by
  have hu : Update m (Msg.key t) =
      { model := m, effects := m.sessions.flatMap signalSession, quit := true } := by
    simp only [Update]
    rw [if_pos ht]
  rw [hu]
  exact ⟨rfl, countP_flatMap_signal m.sessions hlive,
    fun s hs => signalSession_one_attempt s (hlive s hs), rfl⟩

/-- Witness for C2: quitting with three tracked sessions — the middle one's
`Getpgid` failing — makes exactly three interrupt attempts and quits. -/
theorem c2_witness :
    (Update sampleMuxModel (Msg.key ("q"))).effects =
      sampleMuxModel.sessions.flatMap signalSession ∧
    ((Update sampleMuxModel (Msg.key ("q"))).effects.countP isInterruptAttempt) =
      sampleMuxModel.sessions.length ∧
    (∀ s ∈ sampleMuxModel.sessions, (signalSession s).countP isInterruptAttempt = 1) ∧
    (Update sampleMuxModel (Msg.key ("q"))).quit = true :=
  c2_quit_signals_each_session_once sampleMuxModel ("q") (Or.inr rfl) (by decide)

/-- One Update step keeps the focused index inside the session slice and
never changes the slice itself. -/
theorem update_preserves_bounds (m : multiplexerModel) (msg : Msg)
    (h : m.activeIndex < m.sessions.length) :
    (stepModel m msg).activeIndex < (stepModel m msg).sessions.length ∧
    (stepModel m msg).sessions = m.sessions := by
  cases msg with
  | tick => exact ⟨h, rfl⟩
  | key t =>
    simp only [stepModel, Update]
    by_cases h1 : t = "ctrl+c" ∨ t = "q"
    · rw [if_pos h1]; exact ⟨h, rfl⟩
    · rw [if_neg h1]
      by_cases h2 : t = "left" ∨ t = "h"
      · rw [if_pos h2]
        refine ⟨?_, rfl⟩
        dsimp only
        split <;> omega
      · rw [if_neg h2]
        by_cases h3 : t = "right" ∨ t = "l"
        · rw [if_pos h3]
          refine ⟨?_, rfl⟩
          dsimp only
          split <;> omega
        · rw [if_neg h3]; exact ⟨h, rfl⟩

/-- The bound is preserved by any sequence of events, and the session slice
never changes. -/
theorem runEvents_invariant (m : multiplexerModel) (msgs : List Msg)
    (h : m.activeIndex < m.sessions.length) :
    (runEvents m msgs).activeIndex < (runEvents m msgs).sessions.length ∧
    (runEvents m msgs).sessions = m.sessions := by
  induction msgs generalizing m with
  | nil => exact ⟨h, rfl⟩
  | cons e es ih =>
    have h1 := update_preserves_bounds m e h
    have h2 := ih (stepModel m e) h1.1
    refine ⟨h2.1, ?_⟩
    rw [show runEvents m (e :: es) = runEvents (stepModel m e) es from rfl, h2.2, h1.2]

/-- C5: with a non-empty session slice the focused index starts at 0 and
after any sequence of key or tick events stays below N, so indexing the
slice in Update and View always succeeds; a move-left at index 0 and a
move-right at index N−1 leave the index unchanged (no wraparound). -/
theorem c5_navigation_bounds (sessions : List Session) (msgs : List Msg)
    (hne : sessions ≠ []) :
    (NewMultiplexerModel sessions).activeIndex = 0 ∧
    (runEvents (NewMultiplexerModel sessions) msgs).activeIndex < sessions.length ∧
    (sessions.get? (runEvents (NewMultiplexerModel sessions) msgs).activeIndex).isSome = true ∧
    (∀ m : multiplexerModel, m.activeIndex = 0 →
        (Update m (Msg.key ("left"))).model.activeIndex = 0 ∧
        (Update m (Msg.key ("h"))).model.activeIndex = 0) ∧
    (∀ m : multiplexerModel, m.activeIndex = m.sessions.length - 1 →
        (Update m (Msg.key ("right"))).model.activeIndex = m.sessions.length - 1 ∧
        (Update m (Msg.key ("l"))).model.activeIndex = m.sessions.length - 1) := by
  have h0 : (NewMultiplexerModel sessions).activeIndex <
      (NewMultiplexerModel sessions).sessions.length := by
    simp only [NewMultiplexerModel]
    exact List.length_pos.mpr hne
  obtain ⟨hb, hs⟩ := runEvents_invariant (NewMultiplexerModel sessions) msgs h0
  rw [hs] at hb
  have hb2 : (runEvents (NewMultiplexerModel sessions) msgs).activeIndex <
      sessions.length := hb
  refine ⟨rfl, hb2, ?_, ?_, ?_⟩
  · rw [List.get?_eq_get hb2]
    rfl
  · intro m hm
    constructor <;> simp [Update, hm]
  · intro m hm
    constructor <;> simp [Update, hm]

/-- Witness for C5 at three sessions and a single move-left event. -/
theorem c5_witness :
    (NewMultiplexerModel sampleThreeSessions).activeIndex = 0 ∧
    (runEvents (NewMultiplexerModel sampleThreeSessions) [Msg.key ("left")]).activeIndex <
      sampleThreeSessions.length ∧
    (sampleThreeSessions.get? (runEvents (NewMultiplexerModel sampleThreeSessions)
        [Msg.key ("left")]).activeIndex).isSome = true ∧
    (∀ m : multiplexerModel, m.activeIndex = 0 →
        (Update m (Msg.key ("left"))).model.activeIndex = 0 ∧
        (Update m (Msg.key ("h"))).model.activeIndex = 0) ∧
    (∀ m : multiplexerModel, m.activeIndex = m.sessions.length - 1 →
        (Update m (Msg.key ("right"))).model.activeIndex = m.sessions.length - 1 ∧
        (Update m (Msg.key ("l"))).model.activeIndex = m.sessions.length - 1) :=
  c5_navigation_bounds sampleThreeSessions [Msg.key ("left")] (by decide)

/-- The quit loop emits only `Getpgid` and `Kill` effects, never a stdin
write. -/
theorem signalSession_no_stdin_write (s : Session) (e : Effect)
    (he : e ∈ signalSession s) : isStdinWrite e = false := by
  obtain ⟨name, stdin, output, cmd⟩ := s
  cases cmd with
  | none => simp [signalSession] at he
  | some c =>
    obtain ⟨proc⟩ := c
    cases proc with
    | none => simp [signalSession] at he
    | some p =>
      obtain ⟨pid, pgid⟩ := p
      cases pgid with
      | none =>
        simp [signalSession] at he
        subst he
        rfl
      | some g =>
        simp [signalSession] at he
        rcases he with he | he <;> (subst he; rfl)

/-- The default branch of Update: any key outside the six handled cases is
routed to the focused session's stdin. -/
theorem Update_default (m : multiplexerModel) (t : String)
    (h1 : ¬(t = "ctrl+c" ∨ t = "q")) (h2 : ¬(t = "left" ∨ t = "h"))
    (h3 : ¬(t = "right" ∨ t = "l")) :
    Update m (Msg.key t) =
      { model := m,
        effects :=
          match m.sessions.get? m.activeIndex with
          | none => []
          | some active =>
            match active.stdin with
            | none => []
            | some h => [Effect.writeStdin h t],
        quit := false } := by
  simp only [Update]
  rw [if_neg h1, if_neg h2, if_neg h3]

/-- C10: the six reserved key texts are consumed by the UI — on any of them
no Update step ever emits a stdin write — while every non-reserved key is
forwarded verbatim as a single write to the focused session's stdin (the
sessions built by the launcher all carry a stdin pipe). -/
theorem c10_key_routing (m : multiplexerModel) (t : String)
    (hidx : m.activeIndex < m.sessions.length)
    (hstdin : ∀ s ∈ m.sessions, s.stdin.isSome = true) :
    (t ∈ reservedKeys →
      ∀ e ∈ (Update m (Msg.key t)).effects, isStdinWrite e = false) ∧
    (t ∉ reservedKeys →
      ∃ active : Session, ∃ hpipe : Nat,
        m.sessions.get? m.activeIndex = some active ∧
        active.stdin = some hpipe ∧
        (Update m (Msg.key t)).effects = [Effect.writeStdin hpipe t]) := by
  constructor
  · intro hres e he
    simp only [reservedKeys, List.mem_cons, List.not_mem_nil, or_false] at hres
    have hquit : ∀ u : String, u = "ctrl+c" ∨ u = "q" →
        ∀ e2 ∈ (Update m (Msg.key u)).effects, isStdinWrite e2 = false := by
      intro u hu e2 he2
      have : (Update m (Msg.key u)).effects = m.sessions.flatMap signalSession := by
        simp only [Update]
        rw [if_pos hu]
      rw [this] at he2
      obtain ⟨s, hsmem, hes⟩ := List.mem_flatMap.mp he2
      exact signalSession_no_stdin_write s e2 hes
    have hnav : ∀ u : String, ¬(u = "ctrl+c" ∨ u = "q") →
        ((u = "left" ∨ u = "h") ∨ (u = "right" ∨ u = "l")) →
        (Update m (Msg.key u)).effects = [] := by
      intro u hu hnavu
      rcases hnavu with hlh | hrl
      · simp only [Update]
        rw [if_neg hu, if_pos hlh]
      · by_cases hlh : u = "left" ∨ u = "h"
        · simp only [Update]
          rw [if_neg hu, if_pos hlh]
        · simp only [Update]
          rw [if_neg hu, if_neg hlh, if_pos hrl]
    rcases hres with h | h | h | h | h | h <;> subst h
    · exact hquit ("ctrl+c") (Or.inl rfl) e he
    · exact hquit ("q") (Or.inr rfl) e he
    · rw [hnav ("left") (by decide) (Or.inl (Or.inl rfl))] at he
      cases he
    · rw [hnav ("h") (by decide) (Or.inl (Or.inr rfl))] at he
      cases he
    · rw [hnav ("right") (by decide) (Or.inr (Or.inl rfl))] at he
      cases he
    · rw [hnav ("l") (by decide) (Or.inr (Or.inr rfl))] at he
      cases he
  · intro hres
    simp only [reservedKeys, List.mem_cons, List.not_mem_nil, or_false] at hres
    push_neg at hres
    obtain ⟨h1, h2, h3, h4, h5, h6⟩ := hres
    have hget := List.get?_eq_get hidx
    have hmem : m.sessions.get ⟨m.activeIndex, hidx⟩ ∈ m.sessions :=
      List.get_mem m.sessions m.activeIndex hidx
    obtain ⟨hpipe, hhs⟩ := Option.isSome_iff_exists.mp (hstdin _ hmem)
    refine ⟨m.sessions.get ⟨m.activeIndex, hidx⟩, hpipe, hget, hhs, ?_⟩
    rw [Update_default m t (by simp [h1, h2]) (by simp [h3, h4]) (by simp [h5, h6]), hget]
    dsimp only
    rw [hhs]

/-- Witness for C10 at the sample model: the key text a is not reserved,
and the theorem yields its verbatim forwarding to the focused session. -/
theorem c10_witness :
    (("a" : String) ∈ reservedKeys →
      ∀ e ∈ (Update sampleMuxModel (Msg.key ("a"))).effects, isStdinWrite e = false) ∧
    (("a" : String) ∉ reservedKeys →
      ∃ active : Session, ∃ hpipe : Nat,
        sampleMuxModel.sessions.get? sampleMuxModel.activeIndex = some active ∧
        active.stdin = some hpipe ∧
        (Update sampleMuxModel (Msg.key ("a"))).effects =
          [Effect.writeStdin hpipe ("a")]) :=
  c10_key_routing sampleMuxModel ("a") (by decide) (by decide)

/-- C9: the rendered view is the header — a title line plus one line per
session, the focused one marked with a chevron, padded with blank lines up
to the fixed height — followed by the separator and the focused session's
whole output buffer, untruncated. -/
theorem c9_view_structure (m : multiplexerModel) (active : Session)
    (hact : m.sessions.get? m.activeIndex = some active) :
    View m = some (String.intercalate ("\n") (headerLines m) ++
      "\n\n--- Active Session Output ---\n" ++ active.output) ∧
    (headerLines m).length = max (m.sessions.length + 1) headerHeight ∧
    (headerLines m).get? 0 = some ("Sessions:") ∧
    (∀ i s, m.sessions.get? i = some s →
        (headerLines m).get? (i + 1) =
          some ((if i = m.activeIndex then "> " else "  ") ++ toString i ++ ": " ++ s.name)) := by
  refine ⟨?_, ?_, ?_, ?_⟩
  · unfold View
    rw [hact]
  · simp only [headerLines]
    simp [List.enum_length]
    omega
  · rfl
  · intro i s hi
    have hilen : i < m.sessions.length := by
      by_contra hle
      push_neg at hle
      rw [List.get?_eq_none.mpr hle] at hi
      cases hi
    have hlt : i + 1 <
        ("Sessions:" :: m.sessions.enum.map
          (fun p => sessionHeaderLine p.1 m.activeIndex p.2)).length := by
      simp [List.enum_length]
      omega
    simp only [headerLines]
    rw [List.get?_append hlt]
    rw [List.get?_cons_succ, List.get?_map, List.get?_enum, hi]
    rfl

/-- Witness for C9 at the sample model focused on session 1. -/
theorem c9_witness :
    View sampleMuxModel = some (String.intercalate ("\n") (headerLines sampleMuxModel) ++
      "\n\n--- Active Session Output ---\n" ++
      ({ name := "beta", stdin := some 2, output := "",
         cmd := some { process := some { pid := 12, pgid := none } } } : Session).output) ∧
    (headerLines sampleMuxModel).length =
      max (sampleMuxModel.sessions.length + 1) headerHeight ∧
    (headerLines sampleMuxModel).get? 0 = some ("Sessions:") ∧
    (∀ i s, sampleMuxModel.sessions.get? i = some s →
        (headerLines sampleMuxModel).get? (i + 1) =
          some ((if i = sampleMuxModel.activeIndex then "> " else "  ") ++
            toString i ++ ": " ++ s.name)) :=
  c9_view_structure sampleMuxModel
    { name := "beta", stdin := some 2, output := "",
      cmd := some { process := some { pid := 12, pgid := none } } } (by decide)

end OmniPath
